import Mathlib

/-!
Shallow embedding of the authentication / token-lifecycle core of the
WebHelperWidget backend (`src/api/app`): token issuance (`auth.py`,
`cookie_auth.py`), the `authenticator` gate and `math_captcha` decorator
(`apis/utils/utils.py`), the revocation blocklist (`app/__init__.py`),
and the account-deletion endpoint (`apis/account.py`).

Time is modelled as a natural-number clock (seconds); the Redis store as
an association list of entries carrying the time they were set and their
TTL; the SQL user table as a list of `User` records.  Configuration
values (token lifetimes, captcha duration) live in a `Config` record,
mirroring `app.config`.  Randomness (jti generation, captcha operands)
is supplied as explicit arguments.  bcrypt is an external collaborator
and is passed in as an abstract hash-check function.
-/

namespace WebHelper

/-- Mirrors `app/database/models/user.py` (class `User`): the account
fields the auth core reads and writes.  Timestamps are `Nat` seconds. -/
structure User where
  uuid : String
  email : String
  password : String
  email_verified : Bool
  is_deleted : Bool
  removal_reason : Option String
  deleted_at : Option Nat
  is_blocked : Bool
  blocked_reason : Option String
  blocked_until : Option Nat
  deriving Repr, DecidableEq

/-- JWT token type: `access` or `refresh` (flask_jwt_extended's `type` claim). -/
inductive TokenType where
  | access
  | refresh
  deriving Repr, DecidableEq

/-- A decoded JWT: the claims the code reads.  `sub` is the account uuid,
`jti` the unique token id, `refresh_jti` the optional back-reference an
access token carries to the refresh token it was issued alongside.
Signature validity is implicit: only tokens this system mints exist. -/
structure Token where
  sub : String
  typ : TokenType
  jti : String
  fresh : Bool
  iat : Nat
  exp : Nat
  refresh_jti : Option String
  deriving Repr, DecidableEq

/-- Deployment configuration (`app.config`): token lifetimes and the
captcha validity window, in seconds. -/
structure Config where
  JWT_ACCESS_TOKEN_EXPIRES : Nat
  JWT_REFRESH_TOKEN_EXPIRES : Nat
  MATH_CAPTCHA_DURATION : Nat
  deriving Repr, DecidableEq

/-- One Redis entry: key, value, the time `SET` ran, and the TTL passed
to `SET` (`ex=`/third positional argument in the code). -/
structure RedisEntry where
  key : String
  value : String
  setAt : Nat
  ttl : Nat
  deriving Repr, DecidableEq

/-- The Redis store (`redis_client`). -/
abbrev Redis := List RedisEntry

/-- `redis_client.set(k, v, ex=ttl)` at time `now`: overwrites any entry
for the same key. -/
def redis_set (r : Redis) (k v : String) (ttl now : Nat) : Redis :=
  ⟨k, v, now, ttl⟩ :: r.filter (fun e => e.key ≠ k)

/-- `redis_client.get(k)` at time `now`: an entry is visible until its
TTL elapses. -/
def redis_get (r : Redis) (k : String) (now : Nat) : Option String :=
  match r.find? (fun e => e.key == k) with
  | some e => if now < e.setAt + e.ttl then some e.value else none
  | none => none

/-- `redis_client.delete(k)`. -/
def redis_delete (r : Redis) (k : String) : Redis :=
  r.filter (fun e => e.key ≠ k)

/-- `UserDAO.get_user_by_email` (`database/dao/user.py`). -/
def get_user_by_email (db : List User) (email : String) : Option User :=
  db.find? (fun u => u.email == email)

/-- `UserDAO.get_user_by_uuid` (`database/dao/user.py`). -/
def get_user_by_uuid (db : List User) (uuid : String) : Option User :=
  db.find? (fun u => u.uuid == uuid)

/-- `UserDAO.commit()` after mutating a loaded user record: persists the
updated row (matched by uuid). -/
def commit_user (db : List User) (u : User) : List User :=
  db.map (fun v => if v.uuid == u.uuid then u else v)

/-- `create_access_token(identity, fresh, additional_claims={refresh_jti})`
from flask_jwt_extended, as the code calls it: a signed access token with
a fresh jti and the configured access lifetime. -/
def create_access_token (identity : String) (fresh : Bool)
    (refresh_jti : Option String) (jti : String) (now : Nat) (cfg : Config) : Token :=
  { sub := identity, typ := .access, jti := jti, fresh := fresh,
    iat := now, exp := now + cfg.JWT_ACCESS_TOKEN_EXPIRES, refresh_jti := refresh_jti }

/-- `create_refresh_token(identity)`: a refresh token is never fresh and
carries no `refresh_jti` claim. -/
def create_refresh_token (identity : String) (jti : String) (now : Nat) (cfg : Config) : Token :=
  { sub := identity, typ := .refresh, jti := jti, fresh := false,
    iat := now, exp := now + cfg.JWT_REFRESH_TOKEN_EXPIRES, refresh_jti := none }

/-! ## Math problem generator (`utils.generate_math_problem`) -/

/-- The four operators `random.choice(['+', '-', '*', '/'])` draws from. -/
inductive Op where
  | add
  | sub
  | mul
  | div
  deriving Repr, DecidableEq

/-- One iteration of the `while True` loop body of
`generate_math_problem`, after `num1`, `num2` and `operation` have been
drawn: `none` means `continue` (division rejected, or result out of
`[1, 1000]`), `some result` means the loop returns `(problem, result)`. -/
def generate_math_problem_step (num1 num2 : Int) (operation : Op) : Option Int :=
  let result : Option Int :=
    match operation with
    | .add => some (num1 + num2)
    | .sub => some (num1 - num2)
    | .mul => some (num1 * num2)
    | .div => if num2 ≠ 0 ∧ num1 % num2 = 0 then some (num1 / num2) else none
  match result with
  | none => none
  | some r => if 1 ≤ r ∧ r ≤ 1000 then some r else none

/-! ## Token validator / gate (`utils.authenticator` and
`flask_jwt_extended.verify_jwt_in_request`) -/

/-- The keyword arguments of `utils.authenticator`, with their source
defaults (`locations` selects transport and is not modelled). -/
structure GateParams where
  optional : Bool := false
  fresh : Bool := false
  refresh : Bool := false
  verify_type : Bool := true
  skip_revocation_check : Bool := false
  deriving Repr, DecidableEq

/-- `verify_jwt_in_request(optional, fresh, refresh, locations,
verify_type, skip_revocation_check)`: returns `some 401` when the token
is rejected, `none` when verification passes.  In order: presence
(unless optional), signature/expiry, type (when `verify_type`),
freshness, then the blocklist callback `check_if_token_is_revoked`
(`app/__init__.py`), which reports the token revoked exactly when
`redis_client.get(jti)` is non-None. -/
def verify_jwt_in_request (p : GateParams) (tok : Option Token)
    (redis : Redis) (now : Nat) : Option Nat :=
  match tok with
  | none => if p.optional then none else some 401
  | some t =>
    if t.exp ≤ now then some 401
    else if p.verify_type &&
        (t.typ ≠ (if p.refresh then TokenType.refresh else TokenType.access)) then some 401
    else if p.fresh && !t.fresh then some 401
    else if !p.skip_revocation_check && (redis_get redis t.jti now).isSome then some 401
    else none

/-- The block details a 423 response surfaces (`blocked_until`,
`block_reason`). -/
structure BlockInfo where
  block_reason : Option String
  blocked_until : Nat
  deriving Repr, DecidableEq

/-- Outcome of the account-state block shared by `authenticator` and the
login handlers: either an error status (423 carrying the block info) or
the possibly block-cleared user, with a flag recording whether
`UserDAO.commit()` ran.  An `is_blocked` user whose `blocked_until` is
NULL makes the Python crash on `.replace` (Flask turns that into a 500),
modelled by status 500. -/
inductive StateOutcome where
  | err (status : Nat) (info : Option BlockInfo)
  | ok (u : User) (committed : Bool)
  deriving Repr, DecidableEq

/-- The account-state checks of `utils.authenticator` lines 236-254
(textually repeated in `auth.py`/`cookie_auth.py` login): unverified
email → 403; deleted → 410; blocked with `blocked_until > now` → 423
with details; blocked but expired → clear the three block fields and
commit; otherwise pass the user through unchanged. -/
def user_state_check (u : User) (now : Nat) : StateOutcome :=
  if !u.email_verified then .err 403 none
  else if u.is_deleted then .err 410 none
  else if u.is_blocked then
    match u.blocked_until with
    | none => .err 500 none
    | some b =>
      if now < b then .err 423 (some ⟨u.blocked_reason, b⟩)
      else .ok { u with is_blocked := false, blocked_reason := none, blocked_until := none } true
  else .ok u false

/-- Result of the `authenticator` gate: the wrapped handler runs against
the (possibly updated) user table, or the request fails with a status
(423 carrying the block info). -/
inductive AuthResult where
  | proceed (db : List User)
  | fail (status : Nat) (info : Option BlockInfo)
  deriving Repr, DecidableEq

/-- `utils.authenticator` wrapper body: `verify_jwt_in_request` first;
then, only when the gate is not optional, load the account by the
token's `sub` (`None` → 401) and run the account-state checks,
persisting a cleared block before the handler runs. -/
def authenticator (p : GateParams) (tok : Option Token) (redis : Redis)
    (db : List User) (now : Nat) : AuthResult :=
  match verify_jwt_in_request p tok redis now with
  | some code => .fail code none
  | none =>
    if p.optional then .proceed db
    else
      match get_user_by_uuid db ((tok.map Token.sub).getD "") with
      | none => .fail 401 none
      | some user =>
        match user_state_check user now with
        | .err code info => .fail code info
        | .ok user' committed => .proceed (if committed then commit_user db user' else db)

/-! ## Login (`auth.py` / `cookie_auth.py`, `Auth.get`) -/

/-- Result of the login handler: an error status (423 with details), or
the two issued tokens plus the user table (updated when an expired block
was cleared). -/
inductive LoginResult where
  | err (status : Nat) (info : Option BlockInfo)
  | ok (access_token refresh_token : Token) (db : List User)
  deriving Repr, DecidableEq

/-- `Auth.get` (login) of `auth.py`/`cookie_auth.py`: look the user up by
email; 401 when absent or when `bcrypt.check_password_hash` fails; then
the same account-state checks as the gate; on success mint a refresh
token, then an access token with `fresh=True` and `refresh_jti` set to
the refresh token's jti, and return both.  `check_password_hash` models
bcrypt (external); `jtiR`/`jtiA` are the jtis flask_jwt_extended draws. -/
def login (check_password_hash : String → String → Bool) (db : List User)
    (email password : String) (now : Nat) (cfg : Config)
    (jtiR jtiA : String) : LoginResult :=
  match get_user_by_email db email with
  | none => .err 401 none
  | some user =>
    if !check_password_hash user.password password then .err 401 none
    else
      match user_state_check user now with
      | .err code info => .err code info
      | .ok user' committed =>
        let db' := if committed then commit_user db user' else db
        let refresh_token := create_refresh_token user.uuid jtiR now cfg
        .ok (create_access_token user.uuid true (some refresh_token.jti) jtiA now cfg)
          refresh_token db'

/-! ## Refresh and logout handlers (`Auth.patch`, `Auth.delete`) -/

/-- Gate of `Auth.patch`: `@authenticator(refresh=True)` — all other
arguments keep their defaults, in particular `verify_type=True`. -/
def refreshGateParams : GateParams := { refresh := true }

/-- Gate of `Auth.delete`: `@authenticator(refresh=False)` — again
`verify_type` keeps its default `True`. -/
def logoutGateParams : GateParams := { refresh := false }

/-- `Auth.patch` handler body: a new access token for
`get_jwt_identity()` with `fresh=False` and `refresh_jti` set to the
presented token's own jti; no refresh token is minted. -/
def refresh_handler (tok : Token) (now : Nat) (cfg : Config) (jtiA : String) :
    Token × Nat :=
  (create_access_token tok.sub false (some tok.jti) jtiA now cfg, 200)

/-- `Auth.delete` handler body: revoke the token's own jti with TTL
`JWT_ACCESS_TOKEN_EXPIRES`, then read `get_jwt()["refresh_jti"]`
unconditionally — a token without that claim raises `KeyError`
(modelled `none`, a 500) — and revoke it with TTL
`JWT_REFRESH_TOKEN_EXPIRES`. -/
def logout_handler (tok : Token) (redis : Redis) (cfg : Config) (now : Nat) :
    Option (Redis × Nat) :=
  let r1 := redis_set redis tok.jti "access token revoked" cfg.JWT_ACCESS_TOKEN_EXPIRES now
  match tok.refresh_jti with
  | none => none
  | some rj => some (redis_set r1 rj "refresh token revoked" cfg.JWT_REFRESH_TOKEN_EXPIRES now, 200)

/-! ## Step-up CAPTCHA (`utils.math_captcha`, `account.py`) -/

/-- The Redis key `account-{sub}-removal-captcha-answer`. -/
def captcha_key (sub : String) : String :=
  "account-" ++ sub ++ "-removal-captcha-answer"

/-- Result of the `math_captcha` decorator: the guarded handler runs
(challenge consumed), or a challenge response (status 202) with the
newly stored answer. -/
inductive CaptchaResult where
  | proceed (redis : Redis)
  | challenge (redis : Redis) (answer : Nat) (status : Nat)
  deriving Repr, DecidableEq

/-- `utils.math_captcha` wrapper body, after the regex has validated the
answer's format (so the supplied answer, when present, is a number):
when an answer is supplied, look the stored value up; if present and
equal, delete the key and run the handler; any other path generates a
fresh problem (`newAnswer` is the generator's result), stores it under
the account's captcha key with TTL `MATH_CAPTCHA_DURATION`, and returns
it with status 202.  The code compares `int(answer) == int(stored)`;
both strings are canonical decimal numerals (the answer by the
validating regex, the stored value as `str()` of an int), on which
integer comparison coincides with the string comparison used here. -/
def math_captcha (sub : String) (captcha_answer : Option Nat) (redis : Redis)
    (now : Nat) (cfg : Config) (newAnswer : Nat) : CaptchaResult :=
  let issue : CaptchaResult :=
    .challenge (redis_set redis (captcha_key sub) (toString newAnswer)
      cfg.MATH_CAPTCHA_DURATION now) newAnswer 202
  match captcha_answer with
  | none => issue
  | some a =>
    match redis_get redis (captcha_key sub) now with
    | none => issue
    | some stored =>
      if toString a = stored then .proceed (redis_delete redis (captcha_key sub))
      else issue

/-! ## Account deletion (`account.py`, `Account.delete`) -/

/-- Outcome of `Account.delete`: status code plus resulting Redis store
and user table; `answer` is the freshly issued captcha answer on the 202
path.  `none` models the crash when the gated user is absent from the
table (`user.is_deleted = True` on `None`). -/
structure DeleteOutcome where
  status : Nat
  redis : Redis
  db : List User
  answer : Option Nat
  deriving Repr, DecidableEq

/-- `Account.delete` body (behind `@jwt_required(fresh=True)` and the
`arg_parser` that validates both optional arguments): no answer, a
stale/absent stored answer, or a mismatch → store a fresh challenge and
return 202; correct answer without `removal_reason` → 400, nothing else
touched; correct answer with a reason → consume the challenge, mark the
user deleted with the reason and `deleted_at = now`, commit, 200.  As in
`math_captcha`, the `int(answer) != int(stored)` comparison is modelled
as inequality of the canonical decimal strings. -/
def account_delete (sub : String) (captcha_answer : Option Nat)
    (removal_reason : Option String) (redis : Redis) (db : List User)
    (now : Nat) (cfg : Config) (newAnswer : Nat) : Option DeleteOutcome :=
  let set_captcha : Option DeleteOutcome :=
    some ⟨202, redis_set redis (captcha_key sub) (toString newAnswer)
      cfg.MATH_CAPTCHA_DURATION now, db, some newAnswer⟩
  match captcha_answer with
  | none => set_captcha
  | some a =>
    match redis_get redis (captcha_key sub) now with
    | none => set_captcha
    | some stored =>
      if toString a ≠ stored then set_captcha
      else
        match removal_reason with
        | none => some ⟨400, redis, db, none⟩
        | some reason =>
          let redis' := redis_delete redis (captcha_key sub)
          match get_user_by_uuid db sub with
          | none => none
          | some user =>
            let user' : User :=
              { user with
                is_deleted := true
                removal_reason := some reason
                deleted_at := some now }
            some ⟨200, redis', commit_user db user', none⟩


/-! ## Test fixtures (concrete configuration, users and tokens used by
the closed witness theorems) -/

/-- A concrete configuration: 300 s access tokens, 3600 s refresh
tokens, 120 s captcha window. -/
def cfg0 : Config := ⟨300, 3600, 120⟩

/-- A healthy verified account. -/
def userOk : User :=
  { uuid := "u1"
    email := "a@b.com"
    password := "H1"
    email_verified := true
    is_deleted := false
    removal_reason := none
    deleted_at := none
    is_blocked := false
    blocked_reason := none
    blocked_until := none }

/-- An account whose email is not verified. -/
def userUnverified : User :=
  { userOk with
    uuid := "u2"
    email := "c@d.com"
    email_verified := false }

/-- A deleted account. -/
def userDeleted : User :=
  { userOk with
    uuid := "u3"
    email := "e@f.com"
    is_deleted := true }

/-- An account blocked until t = 1000. -/
def userBlocked : User :=
  { userOk with
    uuid := "u4"
    email := "g@h.com"
    is_blocked := true
    blocked_reason := some "abuse"
    blocked_until := some 1000 }

/-- An account whose block expired at t = 5. -/
def userExpiredBlock : User :=
  { userOk with
    uuid := "u5"
    email := "i@j.com"
    is_blocked := true
    blocked_reason := some "abuse"
    blocked_until := some 5 }

/-- A fresh access token for `userOk`, linked to refresh jti `r1`. -/
def tok1 : Token := ⟨"u1", .access, "a1", true, 0, 300, some "r1"⟩

/-- A refresh token for `userOk`. -/
def tokR1 : Token := ⟨"u1", .refresh, "r1", false, 0, 3600, none⟩

/-! ## Redis store lemmas -/

theorem find?_filter_ne (r : Redis) (k k' : String) (h : k' ≠ k) :
    (r.filter (fun e => e.key ≠ k)).find? (fun e => e.key == k') =
      r.find? (fun e => e.key == k') := by
  rw [List.find?_filter]
  congr 1
  funext e
  by_cases he : e.key = k'
  · simp [he, h]
  · simp [he]

/-- `find?` after a `redis_set`: the written key maps to the new entry
(value, write time and TTL); other keys are untouched. -/
theorem find?_key_set (r : Redis) (k v : String) (ttl now : Nat) (k' : String) :
    (redis_set r k v ttl now).find? (fun e => e.key == k') =
      if k' = k then some ⟨k, v, now, ttl⟩ else r.find? (fun e => e.key == k') := by
  by_cases h : k' = k
  · subst h
    simp [redis_set]
  · rw [redis_set, if_neg h]
    rw [List.find?_cons_of_neg _ (by simpa using Ne.symm h)]
    exact find?_filter_ne r k k' h

/-- `GET` after `SET`. -/
theorem redis_get_set (r : Redis) (k v : String) (ttl now : Nat) (k' : String) (now' : Nat) :
    redis_get (redis_set r k v ttl now) k' now' =
      if k' = k then (if now' < now + ttl then some v else none)
      else redis_get r k' now' := by
  unfold redis_get
  rw [find?_key_set]
  by_cases h : k' = k
  · simp [h]
  · simp [h]

/-- `GET` after `DELETE`. -/
theorem redis_get_delete (r : Redis) (k k' : String) (now : Nat) :
    redis_get (redis_delete r k) k' now =
      if k' = k then none else redis_get r k' now := by
  by_cases h : k' = k
  · subst h
    have hf : (redis_delete r k').find? (fun e => e.key == k') = none := by
      rw [List.find?_eq_none]
      intro e he
      have hmem := List.of_mem_filter he
      simp at hmem
      simp [hmem]
    unfold redis_get
    rw [hf]
    simp
  · unfold redis_get redis_delete
    rw [find?_filter_ne r k k' h, if_neg h]

/-! ## User table lemmas -/

theorem find?_commit_uuid (db : List User) (s : String) (u u' : User)
    (h : db.find? (fun v => v.uuid == s) = some u) (huuid : u'.uuid = u.uuid) :
    (db.map (fun v => if v.uuid == u'.uuid then u' else v)).find?
      (fun v => v.uuid == s) = some u' := by
  have hu : u.uuid = s := by
    have h2 := List.find?_some h
    simpa using h2
  induction db with
  | nil => simp at h
  | cons v rest ih =>
    by_cases hv : v.uuid = s
    · rw [List.find?_cons_of_pos _ (by simpa using hv)] at h
      have hvu : u = v := (Option.some_inj.mp h).symm
      rw [List.map_cons]
      have hfv : (if v.uuid == u'.uuid then u' else v) = u' := by
        simp [huuid, ← hvu]
      rw [hfv, List.find?_cons_of_pos _ (by simp [huuid, hu])]
    · rw [List.find?_cons_of_neg _ (by simpa using hv)] at h
      rw [List.map_cons]
      have hfv : (if v.uuid == u'.uuid then u' else v) = v := by
        have hne : ¬(v.uuid = u'.uuid) := by
          rw [huuid, hu]
          exact hv
        simp [hne]
      rw [hfv, List.find?_cons_of_neg _ (by simpa using hv)]
      exact ih h

/-- After committing the updated record `u'` (same uuid as the record
`u` the lookup returned), the uuid lookup returns `u'`. -/
theorem get_user_by_uuid_commit (db : List User) (s : String) (u u' : User)
    (h : get_user_by_uuid db s = some u) (huuid : u'.uuid = u.uuid) :
    get_user_by_uuid (commit_user db u') s = some u' := by
  unfold get_user_by_uuid commit_user
  unfold get_user_by_uuid at h
  exact find?_commit_uuid db s u u' h huuid

theorem find?_commit_email (db : List User) (em : String) (u u' : User)
    (h : db.find? (fun v => v.email == em) = some u) (huuid : u'.uuid = u.uuid)
    (hemail : u'.email = u.email) :
    (db.map (fun v => if v.uuid == u'.uuid then u' else v)).find?
      (fun v => v.email == em) = some u' := by
  have hu : u.email = em := by
    have h2 := List.find?_some h
    simpa using h2
  induction db with
  | nil => simp at h
  | cons v rest ih =>
    by_cases hv : v.email = em
    · rw [List.find?_cons_of_pos _ (by simpa using hv)] at h
      have hvu : u = v := (Option.some_inj.mp h).symm
      rw [List.map_cons]
      by_cases hw : v.uuid = u'.uuid
      · rw [show (if v.uuid == u'.uuid then u' else v) = u' by simp [hw]]
        rw [List.find?_cons_of_pos _ (by simp [hemail, hu])]
      · exact absurd (by rw [hvu] at huuid; exact huuid.symm) hw
    · rw [List.find?_cons_of_neg _ (by simpa using hv)] at h
      rw [List.map_cons]
      by_cases hw : v.uuid = u'.uuid
      · rw [show (if v.uuid == u'.uuid then u' else v) = u' by simp [hw]]
        rw [List.find?_cons_of_pos _ (by simp [hemail, hu])]
      · rw [show (if v.uuid == u'.uuid then u' else v) = v by simp [hw]]
        rw [List.find?_cons_of_neg _ (by simpa using hv)]
        exact ih h

/-- After committing the updated record `u'` (same uuid and email as the
record `u` the email lookup returned), the email lookup returns `u'`. -/
theorem get_user_by_email_commit (db : List User) (em : String) (u u' : User)
    (h : get_user_by_email db em = some u) (huuid : u'.uuid = u.uuid)
    (hemail : u'.email = u.email) :
    get_user_by_email (commit_user db u') em = some u' := by
  unfold get_user_by_email commit_user
  unfold get_user_by_email at h
  exact find?_commit_email db em u u' h huuid hemail

/-! ## C9: the math-problem generator -/

/-- C9: every problem produced by the math-problem generator has both
operands in `[1, 1000]` (the `randint(1, 1000)` contract, taken as
hypotheses), an operator among `+ - * /`, a result that is an integer in
`[1, 1000]`, and for division the divisor divides the dividend exactly
(zero remainder), the result being the exact quotient. -/
theorem generate_math_problem_bounds (num1 num2 : Int) (op : Op) (r : Int)
    (h1 : 1 ≤ num1) (h1' : num1 ≤ 1000) (h2 : 1 ≤ num2) (h2' : num2 ≤ 1000)
    (h : generate_math_problem_step num1 num2 op = some r) :
    1 ≤ r ∧ r ≤ 1000 ∧ (op = .div → num2 ∣ num1 ∧ r = num1 / num2) := by
  cases op with
  | add =>
    simp only [generate_math_problem_step] at h
    split at h
    · rename_i hb
      injection h with h
      subst h
      exact ⟨hb.1, hb.2, by simp⟩
    · exact Option.noConfusion h
  | sub =>
    simp only [generate_math_problem_step] at h
    split at h
    · rename_i hb
      injection h with h
      subst h
      exact ⟨hb.1, hb.2, by simp⟩
    · exact Option.noConfusion h
  | mul =>
    simp only [generate_math_problem_step] at h
    split at h
    · rename_i hb
      injection h with h
      subst h
      exact ⟨hb.1, hb.2, by simp⟩
    · exact Option.noConfusion h
  | div =>
    simp only [generate_math_problem_step] at h
    by_cases hd : num2 ≠ 0 ∧ num1 % num2 = 0
    · rw [if_pos hd] at h
      dsimp only at h
      split at h
      · rename_i hb
        injection h with h
        subst h
        exact ⟨hb.1, hb.2, fun _ => ⟨Int.dvd_of_emod_eq_zero hd.2, rfl⟩⟩
      · exact Option.noConfusion h
    · rw [if_neg hd] at h
      exact Option.noConfusion h

/-- Witness for C9 at a concrete accepted division problem, 10 / 5 = 2. -/
theorem generate_math_problem_bounds_witness :
    1 ≤ (2 : Int) ∧ (2 : Int) ≤ 1000 ∧
      (Op.div = .div → (5 : Int) ∣ 10 ∧ (2 : Int) = 10 / 5) :=
  generate_math_problem_bounds 10 5 .div 2 (by decide) (by decide)
    (by decide) (by decide) (by decide)

/-! ## C1: gate ordering and account-state outcomes -/

/-- C1: for every non-optional gated request whose token passes the
signature/expiry/type/freshness/revocation checks
(`verify_jwt_in_request` returns `none`), the account-state check maps
the loaded account to exactly one outcome, short-circuiting in order:
account not found → 401; unverified email → 403; deleted → 410; blocked
with `blocked_until` in the future → 423 surfacing block reason and
expiry; otherwise the handler proceeds.  Moreover the revocation lookup
preempts every account-state outcome (a revoked token fails 401 whatever
the account state), and an optional gate performs no account-state check
at all (it proceeds with the table untouched, for every table). -/
theorem authenticator_account_state_order :
    (∀ p t redis db now, p.optional = false →
      verify_jwt_in_request p (some t) redis now = none →
      get_user_by_uuid db t.sub = none →
      authenticator p (some t) redis db now = .fail 401 none) ∧
    (∀ p t redis db now u, p.optional = false →
      verify_jwt_in_request p (some t) redis now = none →
      get_user_by_uuid db t.sub = some u → u.email_verified = false →
      authenticator p (some t) redis db now = .fail 403 none) ∧
    (∀ p t redis db now u, p.optional = false →
      verify_jwt_in_request p (some t) redis now = none →
      get_user_by_uuid db t.sub = some u → u.email_verified = true →
      u.is_deleted = true →
      authenticator p (some t) redis db now = .fail 410 none) ∧
    (∀ p t redis db now u b, p.optional = false →
      verify_jwt_in_request p (some t) redis now = none →
      get_user_by_uuid db t.sub = some u → u.email_verified = true →
      u.is_deleted = false → u.is_blocked = true → u.blocked_until = some b →
      now < b →
      authenticator p (some t) redis db now = .fail 423 (some ⟨u.blocked_reason, b⟩)) ∧
    (∀ p t redis db now u, p.optional = false →
      verify_jwt_in_request p (some t) redis now = none →
      get_user_by_uuid db t.sub = some u → u.email_verified = true →
      u.is_deleted = false →
      (u.is_blocked = false ∨ ∃ b, u.blocked_until = some b ∧ b ≤ now) →
      ∃ db2, authenticator p (some t) redis db now = .proceed db2) ∧
    (∀ p t redis db now, p.optional = false → p.skip_revocation_check = false →
      now < t.exp →
      (p.verify_type = true →
        t.typ = (if p.refresh then TokenType.refresh else TokenType.access)) →
      (p.fresh = true → t.fresh = true) →
      (redis_get redis t.jti now).isSome = true →
      authenticator p (some t) redis db now = .fail 401 none) ∧
    (∀ p tok redis db now, p.optional = true →
      verify_jwt_in_request p tok redis now = none →
      authenticator p tok redis db now = .proceed db) := by
  refine ⟨?_, ?_, ?_, ?_, ?_, ?_, ?_⟩
  · intro p t redis db now hopt hver hu
    simp [authenticator, hver, hopt, hu]
  · intro p t redis db now u hopt hver hu hv
    simp [authenticator, hver, hopt, hu, user_state_check, hv]
  · intro p t redis db now u hopt hver hu hv hd
    simp [authenticator, hver, hopt, hu, user_state_check, hv, hd]
  · intro p t redis db now u b hopt hver hu hv hd hb hbu hlt
    simp [authenticator, hver, hopt, hu, user_state_check, hv, hd, hb, hbu, hlt]
  · intro p t redis db now u hopt hver hu hv hd hnb
    rcases hnb with hnb | ⟨b, hbu, hble⟩
    · exact ⟨db, by simp [authenticator, hver, hopt, hu, user_state_check, hv, hd, hnb]⟩
    · by_cases hb : u.is_blocked
      · refine ⟨commit_user db
          { u with is_blocked := false, blocked_reason := none, blocked_until := none }, ?_⟩
        simp [authenticator, hver, hopt, hu, user_state_check, hv, hd, hb, hbu,
          Nat.not_lt.mpr hble]
      · exact ⟨db, by simp [authenticator, hver, hopt, hu, user_state_check, hv, hd, hb]⟩
  · intro p t redis db now hopt hskip hlt htyp hfr hrev
    have h2 : (p.verify_type &&
        decide (t.typ ≠ (if p.refresh then TokenType.refresh else TokenType.access))) = false := by
      cases hp : p.verify_type
      · simp
      · simp [htyp hp]
    have h3 : (p.fresh && !t.fresh) = false := by
      cases hp : p.fresh
      · simp
      · simp [hfr hp]
    have hver : verify_jwt_in_request p (some t) redis now = some 401 := by
      simp [verify_jwt_in_request, Nat.not_le.mpr hlt, h2, h3, hskip, hrev]
    simp [authenticator, hver]
  · intro p tok redis db now hopt hver
    simp [authenticator, hver, hopt]

/-- Closed witness for C1: each branch of the gate exercised on a
concrete token, store and user table. -/
theorem authenticator_account_state_order_witness :
    authenticator {} (some tok1) [] [] 10 = .fail 401 none ∧
    authenticator {} (some ⟨"u2", .access, "a2", true, 0, 300, some "r2"⟩) []
      [userUnverified] 10 = .fail 403 none ∧
    authenticator {} (some ⟨"u3", .access, "a3", true, 0, 300, some "r3"⟩) []
      [userDeleted] 10 = .fail 410 none ∧
    authenticator {} (some ⟨"u4", .access, "a4", true, 0, 300, some "r4"⟩) []
      [userBlocked] 10 = .fail 423 (some ⟨some "abuse", 1000⟩) ∧
    (∃ db2, authenticator {} (some tok1) [] [userOk] 10 = .proceed db2) ∧
    authenticator {} (some ⟨"u2", .access, "a2", true, 0, 300, some "r2"⟩)
      [⟨"a2", "x", 0, 100⟩] [userUnverified] 10 = .fail 401 none ∧
    authenticator { optional := true } none [] [userOk] 10 = .proceed [userOk] := by
  refine ⟨?_, ?_, ?_, ?_, ?_, ?_, ?_⟩
  · exact authenticator_account_state_order.1 {} tok1 [] [] 10 (by decide)
      (by decide) (by decide)
  · exact authenticator_account_state_order.2.1 {} _ [] [userUnverified] 10
      userUnverified (by decide) (by decide) (by decide) (by decide)
  · exact authenticator_account_state_order.2.2.1 {} _ [] [userDeleted] 10
      userDeleted (by decide) (by decide) (by decide) (by decide) (by decide)
  · exact authenticator_account_state_order.2.2.2.1 {} _ [] [userBlocked] 10
      userBlocked 1000 (by decide) (by decide) (by decide) (by decide)
      (by decide) (by decide) (by decide) (by decide)
  · exact authenticator_account_state_order.2.2.2.2.1 {} tok1 [] [userOk] 10
      userOk (by decide) (by decide) (by decide) (by decide) (by decide)
      (Or.inl (by decide))
  · exact authenticator_account_state_order.2.2.2.2.2.1 {} _ [⟨"a2", "x", 0, 100⟩]
      [userUnverified] 10 (by decide) (by decide) (by decide) (by decide)
      (by decide) (by decide)
  · exact authenticator_account_state_order.2.2.2.2.2.2 { optional := true } none
      [] [userOk] 10 (by decide) (by decide)

/-! ## C2: login -/

/-- C2: for every login request, a missing account or a failed password
hash check yields 401 with no token issued; with valid credentials the
account-state checks run in the order verified (403), deleted (410),
blocked (423), short-circuiting on the first failure; on success login
issues a refresh token and an access token with `fresh = true` whose
`refresh_jti` equals the refresh token's jti, returning both. -/
theorem login_issuance_and_state_order :
    (∀ chk db email pw now cfg jr ja, get_user_by_email db email = none →
      login chk db email pw now cfg jr ja = .err 401 none) ∧
    (∀ chk db email pw now cfg jr ja u, get_user_by_email db email = some u →
      chk u.password pw = false →
      login chk db email pw now cfg jr ja = .err 401 none) ∧
    (∀ chk db email pw now cfg jr ja u, get_user_by_email db email = some u →
      chk u.password pw = true → u.email_verified = false →
      login chk db email pw now cfg jr ja = .err 403 none) ∧
    (∀ chk db email pw now cfg jr ja u, get_user_by_email db email = some u →
      chk u.password pw = true → u.email_verified = true → u.is_deleted = true →
      login chk db email pw now cfg jr ja = .err 410 none) ∧
    (∀ chk db email pw now cfg jr ja u b, get_user_by_email db email = some u →
      chk u.password pw = true → u.email_verified = true → u.is_deleted = false →
      u.is_blocked = true → u.blocked_until = some b → now < b →
      login chk db email pw now cfg jr ja = .err 423 (some ⟨u.blocked_reason, b⟩)) ∧
    (∀ chk db email pw now cfg jr ja u, get_user_by_email db email = some u →
      chk u.password pw = true → u.email_verified = true → u.is_deleted = false →
      (u.is_blocked = false ∨ ∃ b, u.blocked_until = some b ∧ b ≤ now) →
      ∃ db2, login chk db email pw now cfg jr ja =
        .ok (create_access_token u.uuid true (some jr) ja now cfg)
          (create_refresh_token u.uuid jr now cfg) db2 ∧
        (create_access_token u.uuid true (some jr) ja now cfg).fresh = true ∧
        (create_access_token u.uuid true (some jr) ja now cfg).typ = .access ∧
        (create_refresh_token u.uuid jr now cfg).typ = .refresh ∧
        (create_access_token u.uuid true (some jr) ja now cfg).refresh_jti =
          some (create_refresh_token u.uuid jr now cfg).jti) := by
  refine ⟨?_, ?_, ?_, ?_, ?_, ?_⟩
  · intro chk db email pw now cfg jr ja hu
    simp [login, hu]
  · intro chk db email pw now cfg jr ja u hu hchk
    simp [login, hu, hchk]
  · intro chk db email pw now cfg jr ja u hu hchk hv
    simp [login, hu, hchk, user_state_check, hv]
  · intro chk db email pw now cfg jr ja u hu hchk hv hd
    simp [login, hu, hchk, user_state_check, hv, hd]
  · intro chk db email pw now cfg jr ja u b hu hchk hv hd hb hbu hlt
    simp [login, hu, hchk, user_state_check, hv, hd, hb, hbu, hlt]
  · intro chk db email pw now cfg jr ja u hu hchk hv hd hnb
    rcases hnb with hnb | ⟨b, hbu, hble⟩
    · refine ⟨db, ?_, by simp [create_access_token],
        by simp [create_access_token], by simp [create_refresh_token],
        by simp [create_access_token, create_refresh_token]⟩
      simp [login, hu, hchk, user_state_check, hv, hd, hnb,
        create_access_token, create_refresh_token]
    · by_cases hb : u.is_blocked
      · refine ⟨commit_user db
          { u with is_blocked := false, blocked_reason := none, blocked_until := none },
          ?_, by simp [create_access_token], by simp [create_access_token],
          by simp [create_refresh_token],
          by simp [create_access_token, create_refresh_token]⟩
        simp [login, hu, hchk, user_state_check, hv, hd, hb, hbu, Nat.not_lt.mpr hble,
          create_access_token, create_refresh_token]
      · refine ⟨db, ?_, by simp [create_access_token],
          by simp [create_access_token], by simp [create_refresh_token],
          by simp [create_access_token, create_refresh_token]⟩
        simp [login, hu, hchk, user_state_check, hv, hd, hb,
          create_access_token, create_refresh_token]

/-- Closed witness for C2: every login branch exercised on concrete
accounts (hash check modelled by string equality for the fixtures). -/
theorem login_issuance_and_state_order_witness :
    login (fun s p => s == p) [] "x@y.zz" "pw" 10 cfg0 "r" "a" = .err 401 none ∧
    login (fun s p => s == p) [userOk] "a@b.com" "bad" 10 cfg0 "r" "a" = .err 401 none ∧
    login (fun s p => s == p) [userUnverified] "c@d.com" "H1" 10 cfg0 "r" "a" = .err 403 none ∧
    login (fun s p => s == p) [userDeleted] "e@f.com" "H1" 10 cfg0 "r" "a" = .err 410 none ∧
    login (fun s p => s == p) [userBlocked] "g@h.com" "H1" 10 cfg0 "r" "a" =
      .err 423 (some ⟨some "abuse", 1000⟩) ∧
    (∃ db2, login (fun s p => s == p) [userOk] "a@b.com" "H1" 10 cfg0 "r" "a" =
      .ok (create_access_token "u1" true (some "r") "a" 10 cfg0)
        (create_refresh_token "u1" "r" 10 cfg0) db2 ∧
      (create_access_token "u1" true (some "r") "a" 10 cfg0).fresh = true ∧
      (create_access_token "u1" true (some "r") "a" 10 cfg0).typ = .access ∧
      (create_refresh_token "u1" "r" 10 cfg0).typ = .refresh ∧
      (create_access_token "u1" true (some "r") "a" 10 cfg0).refresh_jti =
        some (create_refresh_token "u1" "r" 10 cfg0).jti) := by
  refine ⟨?_, ?_, ?_, ?_, ?_, ?_⟩
  · exact login_issuance_and_state_order.1 (fun s p => s == p) [] "x@y.zz" "pw"
      10 cfg0 "r" "a" (by decide)
  · exact login_issuance_and_state_order.2.1 (fun s p => s == p) [userOk]
      "a@b.com" "bad" 10 cfg0 "r" "a" userOk (by decide) (by decide)
  · exact login_issuance_and_state_order.2.2.1 (fun s p => s == p) [userUnverified]
      "c@d.com" "H1" 10 cfg0 "r" "a" userUnverified (by decide) (by decide) (by decide)
  · exact login_issuance_and_state_order.2.2.2.1 (fun s p => s == p) [userDeleted]
      "e@f.com" "H1" 10 cfg0 "r" "a" userDeleted (by decide) (by decide) (by decide)
      (by decide)
  · exact login_issuance_and_state_order.2.2.2.2.1 (fun s p => s == p) [userBlocked]
      "g@h.com" "H1" 10 cfg0 "r" "a" userBlocked 1000 (by decide) (by decide)
      (by decide) (by decide) (by decide) (by decide) (by decide)
  · exact login_issuance_and_state_order.2.2.2.2.2 (fun s p => s == p) [userOk]
      "a@b.com" "H1" 10 cfg0 "r" "a" userOk (by decide) (by decide) (by decide)
      (by decide) (Or.inl (by decide))

/-! ## C5: expired blocks are cleared as a read-path side effect -/

/-- C5: an account with `is_blocked = true` and `blocked_until` in the
past, reached by either blocked branch (the non-optional gate's
account-state check, or the login state check), has its block cleared
(`is_blocked = false`, reason and expiry NULL) and persisted, and the
request proceeds; an immediate second request on the resulting table
also proceeds without hitting the 423 path. -/
theorem expired_block_cleared_on_read :
    (∀ p t redis db now u b u2, p.optional = false →
      verify_jwt_in_request p (some t) redis now = none →
      get_user_by_uuid db t.sub = some u →
      u.email_verified = true → u.is_deleted = false →
      u.is_blocked = true → u.blocked_until = some b → b ≤ now →
      u2 = { u with is_blocked := false, blocked_reason := none, blocked_until := none } →
      authenticator p (some t) redis db now = .proceed (commit_user db u2) ∧
      get_user_by_uuid (commit_user db u2) t.sub = some u2 ∧
      u2.is_blocked = false ∧ u2.blocked_reason = none ∧ u2.blocked_until = none ∧
      authenticator p (some t) redis (commit_user db u2) now =
        .proceed (commit_user db u2)) ∧
    (∀ chk db email pw now cfg jr ja u b u2, get_user_by_email db email = some u →
      chk u.password pw = true →
      u.email_verified = true → u.is_deleted = false →
      u.is_blocked = true → u.blocked_until = some b → b ≤ now →
      u2 = { u with is_blocked := false, blocked_reason := none, blocked_until := none } →
      login chk db email pw now cfg jr ja =
        .ok (create_access_token u.uuid true (some jr) ja now cfg)
          (create_refresh_token u.uuid jr now cfg) (commit_user db u2) ∧
      login chk (commit_user db u2) email pw now cfg jr ja =
        .ok (create_access_token u.uuid true (some jr) ja now cfg)
          (create_refresh_token u.uuid jr now cfg) (commit_user db u2)) := by
  constructor
  · intro p t redis db now u b u2 hopt hver hu hv hd hb hbu hble hu2
    subst hu2
    have hlook := get_user_by_uuid_commit db t.sub u
      { u with is_blocked := false, blocked_reason := none, blocked_until := none }
      hu rfl
    have hlook2 := hlook
    simp only [hv, hd] at hlook2
    refine ⟨?_, hlook, by simp, by simp, by simp, ?_⟩
    · simp [authenticator, hver, hopt, hu, user_state_check, hv, hd, hb, hbu,
        Nat.not_lt.mpr hble]
    · simp [authenticator, hver, hopt, hlook2, user_state_check, hv, hd]
  · intro chk db email pw now cfg jr ja u b u2 hu hchk hv hd hb hbu hble hu2
    subst hu2
    have hlook := get_user_by_email_commit db email u
      { u with is_blocked := false, blocked_reason := none, blocked_until := none }
      hu rfl rfl
    have hlook2 := hlook
    simp only [hv, hd] at hlook2
    constructor
    · simp [login, hu, hchk, user_state_check, hv, hd, hb, hbu, Nat.not_lt.mpr hble,
        create_access_token, create_refresh_token]
    · simp [login, hlook2, hchk, user_state_check, hv, hd,
        create_access_token, create_refresh_token]

/-- Closed witness for C5: the account blocked until t = 5, read at
t = 10 through the gate and through login. -/
theorem expired_block_cleared_on_read_witness :
    (authenticator {} (some ⟨"u5", .access, "a5", true, 0, 300, some "r5"⟩) []
        [userExpiredBlock] 10 =
      .proceed (commit_user [userExpiredBlock]
        { userExpiredBlock with is_blocked := false, blocked_reason := none, blocked_until := none }) ∧
      get_user_by_uuid (commit_user [userExpiredBlock]
        { userExpiredBlock with is_blocked := false, blocked_reason := none, blocked_until := none }) "u5" =
        some { userExpiredBlock with is_blocked := false, blocked_reason := none, blocked_until := none } ∧
      ({ userExpiredBlock with is_blocked := false, blocked_reason := none, blocked_until := none } : User).is_blocked = false ∧
      ({ userExpiredBlock with is_blocked := false, blocked_reason := none, blocked_until := none } : User).blocked_reason = none ∧
      ({ userExpiredBlock with is_blocked := false, blocked_reason := none, blocked_until := none } : User).blocked_until = none ∧
      authenticator {} (some ⟨"u5", .access, "a5", true, 0, 300, some "r5"⟩) []
        (commit_user [userExpiredBlock]
          { userExpiredBlock with is_blocked := false, blocked_reason := none, blocked_until := none }) 10 =
        .proceed (commit_user [userExpiredBlock]
          { userExpiredBlock with is_blocked := false, blocked_reason := none, blocked_until := none })) ∧
    (login (fun s p => s == p) [userExpiredBlock] "i@j.com" "H1" 10 cfg0 "r" "a" =
      .ok (create_access_token "u5" true (some "r") "a" 10 cfg0)
        (create_refresh_token "u5" "r" 10 cfg0)
        (commit_user [userExpiredBlock]
          { userExpiredBlock with is_blocked := false, blocked_reason := none, blocked_until := none }) ∧
     login (fun s p => s == p)
        (commit_user [userExpiredBlock]
          { userExpiredBlock with is_blocked := false, blocked_reason := none, blocked_until := none })
        "i@j.com" "H1" 10 cfg0 "r" "a" =
      .ok (create_access_token "u5" true (some "r") "a" 10 cfg0)
        (create_refresh_token "u5" "r" 10 cfg0)
        (commit_user [userExpiredBlock]
          { userExpiredBlock with is_blocked := false, blocked_reason := none, blocked_until := none })) := by
  constructor
  · exact expired_block_cleared_on_read.1 {} ⟨"u5", .access, "a5", true, 0, 300, some "r5"⟩
      [] [userExpiredBlock] 10 userExpiredBlock 5
      { userExpiredBlock with is_blocked := false, blocked_reason := none, blocked_until := none }
      (by decide) (by decide) (by decide) (by decide) (by decide) (by decide)
      (by decide) (by decide) (by decide)
  · exact expired_block_cleared_on_read.2 (fun s p => s == p) [userExpiredBlock]
      "i@j.com" "H1" 10 cfg0 "r" "a" userExpiredBlock 5
      { userExpiredBlock with is_blocked := false, blocked_reason := none, blocked_until := none }
      (by decide) (by decide) (by decide) (by decide) (by decide) (by decide)
      (by decide) (by decide)

/-! ## C6: the refresh endpoint -/

/-- C6: the refresh gate requires a refresh token (type checking is on:
`verify_type` keeps its default `true`), so an access token is rejected
with 401; a valid refresh token (unexpired, unrevoked, healthy account)
is accepted; the handler then returns status 200 with a single new
access token carrying `fresh = false` and `refresh_jti` equal to the
presented refresh token's jti — no refresh token is minted (the handler
result contains exactly one token and it has type access). -/
theorem refresh_endpoint_no_rotation :
    refreshGateParams.refresh = true ∧ refreshGateParams.verify_type = true ∧
    (∀ t redis db now, t.typ = .access →
      authenticator refreshGateParams (some t) redis db now = .fail 401 none) ∧
    (∀ t redis db now u, t.typ = .refresh → now < t.exp →
      (redis_get redis t.jti now).isSome = false →
      get_user_by_uuid db t.sub = some u → u.email_verified = true →
      u.is_deleted = false → u.is_blocked = false →
      authenticator refreshGateParams (some t) redis db now = .proceed db) ∧
    (∀ t now cfg ja,
      (refresh_handler t now cfg ja).2 = 200 ∧
      (refresh_handler t now cfg ja).1.typ = .access ∧
      (refresh_handler t now cfg ja).1.fresh = false ∧
      (refresh_handler t now cfg ja).1.refresh_jti = some t.jti ∧
      (refresh_handler t now cfg ja).1.sub = t.sub) := by
  refine ⟨rfl, rfl, ?_, ?_, ?_⟩
  · intro t redis db now ht
    by_cases hexp : t.exp ≤ now <;>
      simp [authenticator, verify_jwt_in_request, refreshGateParams, hexp, ht]
  · intro t redis db now u ht hlt hrev hu hv hd hb
    have hver : verify_jwt_in_request refreshGateParams (some t) redis now = none := by
      simp [verify_jwt_in_request, refreshGateParams, Nat.not_le.mpr hlt, ht, hrev]
    simp only [authenticator]
    rw [hver]
    simp [refreshGateParams, hu, user_state_check, hv, hd, hb]
  · intro t now cfg ja
    exact ⟨rfl, rfl, rfl, rfl, rfl⟩

/-- Closed witness for C6: the access token `tok1` rejected, the refresh
token `tokR1` accepted, and the handler output for `tokR1`. -/
theorem refresh_endpoint_no_rotation_witness :
    authenticator refreshGateParams (some tok1) [] [userOk] 10 = .fail 401 none ∧
    authenticator refreshGateParams (some tokR1) [] [userOk] 10 = .proceed [userOk] ∧
    ((refresh_handler tokR1 10 cfg0 "a2").2 = 200 ∧
      (refresh_handler tokR1 10 cfg0 "a2").1.typ = .access ∧
      (refresh_handler tokR1 10 cfg0 "a2").1.fresh = false ∧
      (refresh_handler tokR1 10 cfg0 "a2").1.refresh_jti = some tokR1.jti ∧
      (refresh_handler tokR1 10 cfg0 "a2").1.sub = tokR1.sub) := by
  refine ⟨?_, ?_, ?_⟩
  · exact refresh_endpoint_no_rotation.2.2.1 tok1 [] [userOk] 10 (by decide)
  · exact refresh_endpoint_no_rotation.2.2.2.1 tokR1 [] [userOk] 10 userOk
      (by decide) (by decide) (by decide) (by decide) (by decide) (by decide)
      (by decide)
  · exact refresh_endpoint_no_rotation.2.2.2.2 tokR1 10 cfg0 "a2"

/-! ## C3: revocation entry TTL (corrected) -/

/-- C3 counterexample: the claim says the revocation entry's TTL equals
the token's REMAINING lifetime at logout.  Revoke `tok1` (expires at
t = 300) at t = 100: the stored entry under its jti has TTL 300 (the
full configured lifetime), while the remaining lifetime is 200. -/
theorem logout_ttl_full_not_remaining :
    ((logout_handler tok1 [] cfg0 100).map
      (fun x => (x.1.find? (fun e => e.key == "a1")).map RedisEntry.ttl)) =
      some (some 300) ∧
    tok1.exp - 100 = 200 ∧ (300 : Nat) ≠ 200 := by decide

/-- C3 amended: the revocation entries logout writes have TTL equal to
the FULL configured lifetimes — `JWT_ACCESS_TOKEN_EXPIRES` for the
presented token's own jti and `JWT_REFRESH_TOKEN_EXPIRES` for the linked
refresh jti — regardless of the time already elapsed since issuance; and
logout deletes nothing: every other key reads exactly as before. -/
theorem logout_revocation_ttl_configured (tok : Token) (redis : Redis)
    (cfg : Config) (now : Nat) (rj : String)
    (h : tok.refresh_jti = some rj) (hne : rj ≠ tok.jti) :
    ∃ r2, logout_handler tok redis cfg now = some (r2, 200) ∧
      r2.find? (fun e => e.key == tok.jti) =
        some ⟨tok.jti, "access token revoked", now, cfg.JWT_ACCESS_TOKEN_EXPIRES⟩ ∧
      r2.find? (fun e => e.key == rj) =
        some ⟨rj, "refresh token revoked", now, cfg.JWT_REFRESH_TOKEN_EXPIRES⟩ ∧
      (∀ k now2, k ≠ tok.jti → k ≠ rj → redis_get r2 k now2 = redis_get redis k now2) := by
  refine ⟨redis_set (redis_set redis tok.jti "access token revoked"
      cfg.JWT_ACCESS_TOKEN_EXPIRES now) rj "refresh token revoked"
      cfg.JWT_REFRESH_TOKEN_EXPIRES now, ?_, ?_, ?_, ?_⟩
  · simp [logout_handler, h]
  · rw [find?_key_set]
    rw [if_neg (Ne.symm hne)]
    rw [find?_key_set]
    rw [if_pos rfl]
  · rw [find?_key_set]
    rw [if_pos rfl]
  · intro k now2 hk1 hk2
    rw [redis_get_set, if_neg hk2, redis_get_set, if_neg hk1]

/-- Closed witness for the amended C3: `tok1` logged out at t = 50 on an
empty store. -/
theorem logout_revocation_ttl_configured_witness :
    ∃ r2, logout_handler tok1 [] cfg0 50 = some (r2, 200) ∧
      r2.find? (fun e => e.key == tok1.jti) =
        some ⟨tok1.jti, "access token revoked", 50, cfg0.JWT_ACCESS_TOKEN_EXPIRES⟩ ∧
      r2.find? (fun e => e.key == "r1") =
        some ⟨"r1", "refresh token revoked", 50, cfg0.JWT_REFRESH_TOKEN_EXPIRES⟩ ∧
      (∀ k now2, k ≠ tok1.jti → k ≠ "r1" →
        redis_get r2 k now2 = redis_get [] k now2) :=
  logout_revocation_ttl_configured tok1 [] cfg0 50 "r1" (by decide) (by decide)

/-! ## C4: logout gate token type (corrected) -/

/-- C4 counterexample: the claim says the Logout gate runs with
`verify_type = false`, accepting either token type.  In the code the
gate is `@authenticator(refresh=False)`, leaving `verify_type` at its
default `true`: the valid, unexpired, unrevoked refresh token `tokR1`
of the healthy account `userOk` is rejected with 401. -/
theorem logout_gate_rejects_refresh_token :
    logoutGateParams.verify_type = true ∧
    authenticator logoutGateParams (some tokR1) [] [userOk] 10 = .fail 401 none := by
  decide

/-- C4 amended: the Logout gate keeps the default `verify_type = true`
with `refresh = false`, so only valid access tokens are accepted and any
refresh token is rejected with 401; on acceptance the handler revokes
the presented token's own jti and — reading the `refresh_jti` claim
unconditionally — the linked refresh token's jti, so both halves of an
access/refresh pair become invalid; a token without the claim makes the
handler error instead of succeeding. -/
theorem logout_gate_and_pair_revocation :
    logoutGateParams.verify_type = true ∧ logoutGateParams.refresh = false ∧
    (∀ t redis db now, t.typ = .refresh →
      authenticator logoutGateParams (some t) redis db now = .fail 401 none) ∧
    (∀ t redis db now u, t.typ = .access → now < t.exp →
      (redis_get redis t.jti now).isSome = false →
      get_user_by_uuid db t.sub = some u → u.email_verified = true →
      u.is_deleted = false → u.is_blocked = false →
      authenticator logoutGateParams (some t) redis db now = .proceed db) ∧
    (∀ t redis cfg now rj, t.refresh_jti = some rj → rj ≠ t.jti →
      0 < cfg.JWT_ACCESS_TOKEN_EXPIRES → 0 < cfg.JWT_REFRESH_TOKEN_EXPIRES →
      ∃ r2, logout_handler t redis cfg now = some (r2, 200) ∧
        redis_get r2 t.jti now = some "access token revoked" ∧
        redis_get r2 rj now = some "refresh token revoked") ∧
    (∀ t redis cfg now, t.refresh_jti = none →
      logout_handler t redis cfg now = none) := by
  refine ⟨rfl, rfl, ?_, ?_, ?_, ?_⟩
  · intro t redis db now ht
    by_cases hexp : t.exp ≤ now <;>
      simp [authenticator, verify_jwt_in_request, logoutGateParams, hexp, ht]
  · intro t redis db now u ht hlt hrev hu hv hd hb
    have hver : verify_jwt_in_request logoutGateParams (some t) redis now = none := by
      simp [verify_jwt_in_request, logoutGateParams, Nat.not_le.mpr hlt, ht, hrev]
    simp only [authenticator]
    rw [hver]
    simp [logoutGateParams, hu, user_state_check, hv, hd, hb]
  · intro t redis cfg now rj h hne hA hR
    refine ⟨redis_set (redis_set redis t.jti "access token revoked"
        cfg.JWT_ACCESS_TOKEN_EXPIRES now) rj "refresh token revoked"
        cfg.JWT_REFRESH_TOKEN_EXPIRES now, ?_, ?_, ?_⟩
    · simp [logout_handler, h]
    · rw [redis_get_set, if_neg (Ne.symm hne), redis_get_set, if_pos rfl]
      simp [Nat.lt_add_of_pos_right hA]
    · rw [redis_get_set, if_pos rfl]
      simp [Nat.lt_add_of_pos_right hR]
  · intro t redis cfg now h
    simp [logout_handler, h]

/-- Closed witness for the amended C4: the refresh token rejected, the
access token accepted, the pair revoked, and the claim-less token
failing. -/
theorem logout_gate_and_pair_revocation_witness :
    authenticator logoutGateParams (some tokR1) [] [userOk] 10 = .fail 401 none ∧
    authenticator logoutGateParams (some tok1) [] [userOk] 10 = .proceed [userOk] ∧
    (∃ r2, logout_handler tok1 [] cfg0 10 = some (r2, 200) ∧
      redis_get r2 tok1.jti 10 = some "access token revoked" ∧
      redis_get r2 "r1" 10 = some "refresh token revoked") ∧
    logout_handler tokR1 [] cfg0 10 = none := by
  refine ⟨?_, ?_, ?_, ?_⟩
  · exact logout_gate_and_pair_revocation.2.2.1 tokR1 [] [userOk] 10 (by decide)
  · exact logout_gate_and_pair_revocation.2.2.2.1 tok1 [] [userOk] 10 userOk
      (by decide) (by decide) (by decide) (by decide) (by decide) (by decide)
      (by decide)
  · exact logout_gate_and_pair_revocation.2.2.2.2.1 tok1 [] cfg0 10 "r1"
      (by decide) (by decide) (by decide) (by decide)
  · exact logout_gate_and_pair_revocation.2.2.2.2.2 tokR1 [] cfg0 10 (by decide)

/-! ## C7: the step-up CAPTCHA state machine -/

/-- C7: per (account, purpose) the CAPTCHA protocol behaves as a state
machine: no answer supplied, an answer with no (unexpired) stored
challenge, or an answer that does not match the stored value all
generate a fresh challenge, store it under the account's captcha key
with the fixed TTL `MATH_CAPTCHA_DURATION` (overwriting any old entry),
and return it with status 202 without running the guarded operation; an
answer matching the stored value deletes the stored challenge (one-time
use: the key then reads empty) and lets the guarded operation proceed. -/
theorem math_captcha_state_machine :
    (∀ sub redis now cfg na, math_captcha sub none redis now cfg na =
      .challenge (redis_set redis (captcha_key sub) (toString na)
        cfg.MATH_CAPTCHA_DURATION now) na 202) ∧
    (∀ sub a redis now cfg na, redis_get redis (captcha_key sub) now = none →
      math_captcha sub (some a) redis now cfg na =
      .challenge (redis_set redis (captcha_key sub) (toString na)
        cfg.MATH_CAPTCHA_DURATION now) na 202) ∧
    (∀ sub a stored redis now cfg na,
      redis_get redis (captcha_key sub) now = some stored →
      toString a ≠ stored →
      math_captcha sub (some a) redis now cfg na =
      .challenge (redis_set redis (captcha_key sub) (toString na)
        cfg.MATH_CAPTCHA_DURATION now) na 202) ∧
    (∀ sub a stored redis now cfg na,
      redis_get redis (captcha_key sub) now = some stored →
      toString a = stored →
      math_captcha sub (some a) redis now cfg na =
        .proceed (redis_delete redis (captcha_key sub)) ∧
      redis_get (redis_delete redis (captcha_key sub)) (captcha_key sub) now = none) ∧
    (∀ (sub : String) (redis : Redis) (now : Nat) (cfg : Config) (na : Nat),
      (redis_set redis (captcha_key sub) (toString na)
          cfg.MATH_CAPTCHA_DURATION now).find?
        (fun e => e.key == captcha_key sub) =
        some ⟨captcha_key sub, toString na, now, cfg.MATH_CAPTCHA_DURATION⟩) := by
  refine ⟨?_, ?_, ?_, ?_, ?_⟩
  · intro sub redis now cfg na
    simp [math_captcha]
  · intro sub a redis now cfg na hget
    simp [math_captcha, hget]
  · intro sub a stored redis now cfg na hget hne
    simp [math_captcha, hget, hne]
  · intro sub a stored redis now cfg na hget heq
    exact ⟨by simp [math_captcha, hget, heq], by rw [redis_get_delete, if_pos rfl]⟩
  · intro sub redis now cfg na
    rw [find?_key_set, if_pos rfl]

/-- Closed witness for C7: each transition at a concrete account with a
stored answer 7. -/
theorem math_captcha_state_machine_witness :
    math_captcha "u1" none [] 10 cfg0 9 =
      .challenge (redis_set [] (captcha_key "u1") "9" 120 10) 9 202 ∧
    math_captcha "u1" (some 7) [] 10 cfg0 9 =
      .challenge (redis_set [] (captcha_key "u1") "9" 120 10) 9 202 ∧
    math_captcha "u1" (some 3) [⟨captcha_key "u1", "7", 0, 120⟩] 10 cfg0 9 =
      .challenge (redis_set [⟨captcha_key "u1", "7", 0, 120⟩] (captcha_key "u1")
        "9" 120 10) 9 202 ∧
    (math_captcha "u1" (some 7) [⟨captcha_key "u1", "7", 0, 120⟩] 10 cfg0 9 =
      .proceed (redis_delete [⟨captcha_key "u1", "7", 0, 120⟩] (captcha_key "u1")) ∧
     redis_get (redis_delete [⟨captcha_key "u1", "7", 0, 120⟩] (captcha_key "u1"))
       (captcha_key "u1") 10 = none) ∧
    (redis_set [⟨captcha_key "u1", "7", 0, 120⟩] (captcha_key "u1") "9" 120 10).find?
      (fun e => e.key == captcha_key "u1") =
      some ⟨captcha_key "u1", "9", 10, 120⟩ := by
  refine ⟨?_, ?_, ?_, ?_, ?_⟩
  · exact math_captcha_state_machine.1 "u1" [] 10 cfg0 9
  · exact math_captcha_state_machine.2.1 "u1" 7 [] 10 cfg0 9 (by decide)
  · exact math_captcha_state_machine.2.2.1 "u1" 3 "7"
      [⟨captcha_key "u1", "7", 0, 120⟩] 10 cfg0 9 (by decide) (by decide)
  · exact math_captcha_state_machine.2.2.2.1 "u1" 7 "7"
      [⟨captcha_key "u1", "7", 0, 120⟩] 10 cfg0 9 (by decide) (by decide)
  · exact math_captcha_state_machine.2.2.2.2 "u1" [⟨captcha_key "u1", "7", 0, 120⟩]
      10 cfg0 9

/-! ## C8: account deletion requires a removal reason -/

/-- C8: for a delete-account request behind the fresh-access-token gate
whose captcha answer matches the stored challenge: without
`removal_reason` the call returns 400 and changes neither the store nor
the user table; the subsequent call with the same (still stored) correct
answer plus a reason returns 200, consumes the challenge, and commits
the account with `is_deleted = true`, the reason and the deletion time
recorded. -/
theorem account_delete_requires_removal_reason
    (t : Token) (sub : String) (a : Nat) (stored reason : String)
    (redis : Redis) (db : List User) (now : Nat) (cfg : Config) (na : Nat) (u : User)
    (hgate : verify_jwt_in_request { fresh := true } (some t) redis now = none)
    (htyp : t.typ = .access) (hfresh : t.fresh = true) (hsub : t.sub = sub)
    (hstored : redis_get redis (captcha_key sub) now = some stored)
    (hmatch : toString a = stored)
    (hu : get_user_by_uuid db sub = some u) :
    account_delete sub (some a) none redis db now cfg na = some ⟨400, redis, db, none⟩ ∧
    ∃ u2, account_delete sub (some a) (some reason) redis db now cfg na =
        some ⟨200, redis_delete redis (captcha_key sub), commit_user db u2, none⟩ ∧
      u2.is_deleted = true ∧ u2.removal_reason = some reason ∧
      u2.deleted_at = some now ∧
      get_user_by_uuid (commit_user db u2) sub = some u2 := by
  constructor
  · simp [account_delete, hstored, ← hmatch]
  · refine ⟨{ u with is_deleted := true, removal_reason := some reason, deleted_at := some now }, ?_, by simp, by simp, by simp, ?_⟩
    · simp [account_delete, hstored, ← hmatch, hu]
    · exact get_user_by_uuid_commit db sub u _ hu rfl

/-- Closed witness for C8: `userOk` behind the gate with stored answer
7, first without then with a removal reason. -/
theorem account_delete_requires_removal_reason_witness :
    account_delete "u1" (some 7) none [⟨captcha_key "u1", "7", 0, 120⟩] [userOk]
      10 cfg0 9 = some ⟨400, [⟨captcha_key "u1", "7", 0, 120⟩], [userOk], none⟩ ∧
    ∃ u2, account_delete "u1" (some 7) (some "no longer needed")
        [⟨captcha_key "u1", "7", 0, 120⟩] [userOk] 10 cfg0 9 =
        some ⟨200, redis_delete [⟨captcha_key "u1", "7", 0, 120⟩] (captcha_key "u1"),
          commit_user [userOk] u2, none⟩ ∧
      u2.is_deleted = true ∧ u2.removal_reason = some "no longer needed" ∧
      u2.deleted_at = some 10 ∧
      get_user_by_uuid (commit_user [userOk] u2) "u1" = some u2 :=
  account_delete_requires_removal_reason tok1 "u1" 7 "7" "no longer needed"
    [⟨captcha_key "u1", "7", 0, 120⟩] [userOk] 10 cfg0 9 userOk
    (by decide) (by decide) (by decide) (by decide) (by decide) (by decide)
    (by decide)

/-! ## C10: access tokens always carry a refresh_jti back-reference -/

/-- Tokens the system can mint, indexed by the three issuance sites:
login's refresh token, login's access token (linked to the refresh token
minted in the same call), and the refresh endpoint's access token
(linked to the presented, previously issued, refresh token which the
gate guarantees has type refresh). -/
inductive Issued : Token → Prop where
  | login_refresh (uuid jti : String) (now : Nat) (cfg : Config) :
      Issued (create_refresh_token uuid jti now cfg)
  | login_access (uuid jtiR jtiA : String) (now : Nat) (cfg : Config) :
      Issued (create_access_token uuid true
        (some (create_refresh_token uuid jtiR now cfg).jti) jtiA now cfg)
  | refresh_access (rt : Token) (jtiA : String) (now : Nat) (cfg : Config) :
      Issued rt → rt.typ = .refresh →
      Issued (create_access_token rt.sub false (some rt.jti) jtiA now cfg)

/-- C10: every access token the system issues (login or refresh) carries
a `refresh_jti` claim equal to the jti of a system-issued refresh token
for the same identity; consequently, for every issued token the logout
gate accepts, the handler's unconditional read of `refresh_jti`
succeeds (the handler does not error). -/
theorem issued_access_tokens_carry_refresh_jti :
    (∀ t, Issued t → t.typ = .access →
      ∃ rt, Issued rt ∧ rt.typ = .refresh ∧ rt.sub = t.sub ∧
        t.refresh_jti = some rt.jti) ∧
    (∀ t redis db now db2 cfg, Issued t →
      authenticator logoutGateParams (some t) redis db now = .proceed db2 →
      (logout_handler t redis cfg now).isSome = true) := by
  have part1 : ∀ t, Issued t → t.typ = .access →
      ∃ rt, Issued rt ∧ rt.typ = .refresh ∧ rt.sub = t.sub ∧
        t.refresh_jti = some rt.jti := by
    intro t hiss ht
    cases hiss with
    | login_refresh uuid jti now cfg =>
      simp [create_refresh_token] at ht
    | login_access uuid jtiR jtiA now cfg =>
      exact ⟨create_refresh_token uuid jtiR now cfg,
        Issued.login_refresh uuid jtiR now cfg, rfl, rfl, rfl⟩
    | refresh_access rt jtiA now cfg hrt htyp =>
      exact ⟨rt, hrt, htyp, rfl, rfl⟩
  refine ⟨part1, ?_⟩
  intro t redis db now db2 cfg hiss hauth
  have hver : verify_jwt_in_request logoutGateParams (some t) redis now = none := by
    cases hveq : verify_jwt_in_request logoutGateParams (some t) redis now with
    | none => rfl
    | some c =>
      simp only [authenticator, hveq] at hauth
      exact absurd hauth (by simp)
  have htyp : t.typ = .access := by
    cases hty : t.typ with
    | access => rfl
    | refresh =>
      by_cases hexp : t.exp ≤ now <;>
        simp [verify_jwt_in_request, logoutGateParams, hexp, hty] at hver
  obtain ⟨rt, _, _, _, hrj⟩ := part1 t hiss htyp
  simp [logout_handler, hrj]

/-- Closed witness for C10: login's access token (= `tok1` up to
reduction) satisfies the invariant and survives the logout read. -/
theorem issued_access_tokens_carry_refresh_jti_witness :
    (∃ rt, Issued rt ∧ rt.typ = .refresh ∧
      rt.sub = (create_access_token "u1" true (some "r1") "a1" 0 cfg0).sub ∧
      (create_access_token "u1" true (some "r1") "a1" 0 cfg0).refresh_jti =
        some rt.jti) ∧
    (logout_handler (create_access_token "u1" true (some "r1") "a1" 0 cfg0)
      [] cfg0 10).isSome = true := by
  constructor
  · exact issued_access_tokens_carry_refresh_jti.1
      (create_access_token "u1" true (some "r1") "a1" 0 cfg0)
      (Issued.login_access "u1" "r1" "a1" 0 cfg0) rfl
  · exact issued_access_tokens_carry_refresh_jti.2
      (create_access_token "u1" true (some "r1") "a1" 0 cfg0)
      [] [userOk] 10 [userOk] cfg0
      (Issued.login_access "u1" "r1" "a1" 0 cfg0) (by decide)

end WebHelper
